import Mathlib

/-!
Verification development for the forensic-locator repository.

The repository is a TypeScript client/server pair:
  * `useVerification.ts` — the five-phase evidence pipeline (`runVerification`);
  * `geminiService.ts` — the completion-service wrappers
    (`analyzeMediaForClues`, `findLocationWithGrounding`,
    `determineTimestamp`, `generateVerificationReport`) and the Imagery
    Client (`getSatelliteImagery`);
  * the Express credential proxy (`/api/satellite/auth`,
    `/api/satellite/search`, `/api/satellite/thumbnail`).

The shallow embedding below models JavaScript runtime values with an
untyped `Json` type (plus `undefined` for JavaScript `undefined`), models
every external network round-trip as an oracle parameter (the response
the external service happened to give), and models `JSON.parse` as an
arbitrary function `String → Option Json` supplied as a parameter, since
the parser itself is part of the JavaScript runtime, not of this
repository.  Member access, truthiness, template-literal interpolation
and thrown `TypeError`s are modelled explicitly because the pipeline
branches on them.
-/

/-- Untyped JavaScript/JSON value.  `undefined` models JavaScript
`undefined`, which arises from member access on objects lacking the
key; `JSON.parse` itself never produces it.  Numbers are modelled as
rationals (the repository only manipulates decimal literals). -/
inductive Json where
  | undefined : Json
  | null : Json
  | bool (b : Bool) : Json
  | num (q : ℚ) : Json
  | str (s : String) : Json
  | arr (elems : List Json) : Json
  | obj (fields : List (String × Json)) : Json

/-- JavaScript truthiness of a value (`undefined`, `null`, `false`, `0`
and the empty string are falsy; every object and array is truthy). -/
def jsTruthy : Json → Bool
  | .undefined => false
  | .null => false
  | .bool b => b
  | .num q => decide (q ≠ 0)
  | .str s => decide (s ≠ "")
  | .arr _ => true
  | .obj _ => true

/-- Field lookup on an object, yielding `undefined` when the key is missing;
used only where the receiver is known to be an object. -/
def jsGet (j : Json) (k : String) : Json :=
  match j with
  | .obj fields =>
    match fields.find? (fun p => p.1 == k) with
    | some p => p.2
    | none => .undefined
  | _ => .undefined

/-- Member access with JavaScript semantics: reading a property of
`undefined` or `null` throws a `TypeError`; reading a missing property
of any other value yields `undefined`. -/
def jsGetE (j : Json) (k : String) : Except String Json :=
  match j with
  | .undefined => .error ("Cannot read properties of undefined (reading " ++ k ++ ")")
  | .null => .error ("Cannot read properties of null (reading " ++ k ++ ")")
  | .obj fields =>
    match fields.find? (fun p => p.1 == k) with
    | some p => .ok p.2
    | none => .ok .undefined
  | _ => .ok .undefined

/-- Is this value exactly the given string (JavaScript `=== "s"`)? -/
def jsStrEq (j : Json) (s : String) : Bool :=
  match j with
  | .str t => t == s
  | _ => false

/-- The `.length` property as JavaScript reads it: arrays and strings
have their length, objects only an explicit `length` field. -/
def jsLength (j : Json) : Json :=
  match j with
  | .arr xs => .num xs.length
  | .str s => .num s.length
  | .obj _ => jsGet j "length"
  | _ => .undefined

/-- Does `jsLength` read as a number greater than zero (the
`searchData.value.length > 0` test)? -/
def jsLengthPos (j : Json) : Bool :=
  match jsLength j with
  | .num q => decide (0 < q)
  | _ => false

/-- JavaScript `s.split(c)[0]`: the prefix of `s` before the first
occurrence of `c` (all of `s` when `c` does not occur). -/
def headUntil (c : Char) (s : String) : String :=
  String.mk (s.data.takeWhile (fun d => d ≠ c))

/-- JavaScript `s.trim()`: strip leading and trailing whitespace. -/
def trimJs (s : String) : String :=
  String.mk (((s.data.dropWhile Char.isWhitespace).reverse.dropWhile
    Char.isWhitespace).reverse)

/-- JavaScript `s.substring(0, n)`. -/
def takeJs (s : String) (n : Nat) : String :=
  String.mk (s.data.take n)

/-- The `x.substring(0, n)` call: defined on strings, a TypeError on
everything else (`undefined`/`null` receivers throw on the property
read, other receivers on the call). -/
def jsSubstring (j : Json) (n : Nat) : Except String String :=
  match j with
  | .str s => .ok (takeJs s n)
  | .undefined => .error "Cannot read properties of undefined (reading substring)"
  | .null => .error "Cannot read properties of null (reading substring)"
  | _ => .error "substring is not a function"

/-- Object-spread update `{...o, k: v}` restricted to the repository use
sites, where the receiver of the spread is an object (key order of an
overridden key is not preserved); spreading a non-object primitive
yields an object with no fields, as in JavaScript for `null` and
numbers. -/
def jsSetField (j : Json) (k : String) (v : Json) : Json :=
  match j with
  | .obj fields => .obj (fields.filter (fun p => p.1 != k) ++ [(k, v)])
  | _ => .obj [(k, v)]

/-- Ambient JavaScript runtime operations the repository calls but does
not define: number-to-string display, `Date` parsing/printing and
`parseFloat`.  They are parameters of every run: theorems quantify over
them, concrete witnesses pick simple instances. -/
structure JsEnv where
  /-- `new Date().toISOString()` at the moment of the run. -/
  nowIso : String
  /-- `new Date(s).toISOString()` for a parseable date string `s`. -/
  parseIso : String → String
  /-- ISO string of a date minus thirty days
  (`new Date(t.getTime() - 30*24*60*60*1000).toISOString()`). -/
  minus30Iso : String → String
  /-- JavaScript display of a number inside a template literal. -/
  numToString : ℚ → String
  /-- `parseFloat` on the numeric strings the proxy receives. -/
  parseFloatJs : String → ℚ
  /-- `new Date(x).toLocaleDateString()` for an arbitrary value. -/
  localeDate : Json → String

/-- Today in `YYYY-MM-DD` form: `new Date().toISOString().split('T')[0]`. -/
def JsEnv.todayStr (env : JsEnv) : String :=
  headUntil 'T' env.nowIso

mutual
/-- Template-literal interpolation of a value (`${x}`): JavaScript
string conversion.  Arrays join their elements with commas, plain
objects read "[object Object]". -/
def jsDisplay (env : JsEnv) : Json → String
  | .undefined => "undefined"
  | .null => "null"
  | .bool b => if b then "true" else "false"
  | .num q => env.numToString q
  | .str s => s
  | .arr xs => jsDisplayList env xs
  | .obj _ => "[object Object]"

/-- Comma-joined display of array elements. -/
def jsDisplayList (env : JsEnv) : List Json → String
  | [] => ""
  | [x] => jsDisplay env x
  | x :: xs => jsDisplay env x ++ "," ++ jsDisplayList env xs
end

/-- The backquote character, kept out of character-literal syntax. -/
def fenceChar : Char := Char.ofNat 96

/-- One pass of `text.replace(/(three backquotes)json|(three
backquotes)/g, '')`: at each position the regex consumes a fence marker
with an optional `json` tag, otherwise keeps the character. -/
def stripFencesAux : List Char → List Char
  | c1 :: c2 :: c3 :: 'j' :: 's' :: 'o' :: 'n' :: rest =>
    if c1 = fenceChar ∧ c2 = fenceChar ∧ c3 = fenceChar then
      stripFencesAux rest
    else
      c1 :: stripFencesAux (c2 :: c3 :: 'j' :: 's' :: 'o' :: 'n' :: rest)
  | c1 :: c2 :: c3 :: rest =>
    if c1 = fenceChar ∧ c2 = fenceChar ∧ c3 = fenceChar then
      stripFencesAux rest
    else
      c1 :: stripFencesAux (c2 :: c3 :: rest)
  | c :: rest => c :: stripFencesAux rest
  | [] => []

/-- `response.text.replace(/(fence)json|(fence)/g, '').trim()` — the
code-fence stripping every JSON-expecting call site performs before
`JSON.parse`. -/
def stripFencesTrim (s : String) : String :=
  trimJs (String.mk (stripFencesAux s.data))

/-- A web citation `{title, uri}` extracted from grounding metadata. -/
structure GroundingSource where
  title : String
  uri : String
deriving DecidableEq

/-- One entry of `groundingMetadata.groundingChunks`: the `web` member
may be absent. -/
structure WebChunk where
  web : Option GroundingSource
deriving DecidableEq

/-- The `.map(chunk => chunk.web).filter(Boolean).map(web => ({title,
uri}))` chain of `findLocationWithGrounding`. -/
def sourcesOfChunks (chunks : List WebChunk) : List GroundingSource :=
  chunks.filterMap WebChunk.web

/-- The hard-coded fallback `LocationEstimate` substituted by
`findLocationWithGrounding` when the structuring response fails to
parse: the raw grounded text as address, coordinates 31.5/34.45,
confidence 30, accuracy "region". -/
def fallbackLocationData (locationText : String) : Json :=
  .obj [("address", .str locationText),
        ("latitude", .num (mkRat 63 2)),
        ("longitude", .num (mkRat 689 20)),
        ("confidence", .num 30),
        ("accuracy", .str "region")]

/-- `GeminiService.findLocationWithGrounding`.  The two completion-service
round-trips are oracles: `groundingCall` yields the grounded free text
plus the grounding chunks (or a rejection), `structuringCall` the text
of the JSON-restructuring call.  `parse` models `JSON.parse` (failure =
exception). -/
def findLocationWithGrounding (parse : String → Option Json)
    (groundingCall : Except String (String × List WebChunk))
    (structuringCall : Except String String) :
    Except String (Json × List GroundingSource) := do
  let (locationText, chunks) ← groundingCall
  let sources := sourcesOfChunks chunks
  let structTxt ← structuringCall
  match parse (stripFencesTrim structTxt) with
  | some locationData => pure (locationData, sources)
  | none => pure (fallbackLocationData locationText, sources)

/-- The fallback `TimeEstimate` built by `determineTimestamp` when the
model output fails to parse: method "error", confidence 0, time of day
"unknown", the raw response retained as shadow analysis. -/
def timeFallback (responseText : String) : Json :=
  .obj [("estimatedTimeOfDay", .str "unknown"),
        ("confidence", .num 0),
        ("primaryMethod", .str "error"),
        ("shadowAnalysis", .str responseText),
        ("reasoning", .str "Could not parse response")]

/-- `GeminiService.determineTimestamp`.  Building the prompt reads
`locationData.address`, `.latitude` and `.longitude` (a TypeError if
`locationData` is `null`); `timeCall` is the completion-service
round-trip; a parse failure of its text yields `timeFallback`, never an
exception.  `claimedDate` only appears inside the prompt. -/
def determineTimestamp (parse : String → Option Json) (locationData : Json)
    (claimedDate : Option String) (timeCall : Except String String) :
    Except String Json := do
  let _addr ← jsGetE locationData "address"
  let _lat ← jsGetE locationData "latitude"
  let _lon ← jsGetE locationData "longitude"
  let _ := claimedDate
  let t ← timeCall
  match parse (stripFencesTrim t) with
  | some timeData => pure timeData
  | none => pure (timeFallback t)

/-- Serialization of the accumulated grounding sources into the report
(`groundingSources: sources`). -/
def sourcesJson (sources : List GroundingSource) : Json :=
  .arr (sources.map (fun s => .obj [("title", .str s.title), ("uri", .str s.uri)]))

/-- `GeminiService.generateVerificationReport`.  The prompt template
reads `timeData.estimatedTimeOfDay` (a TypeError if `timeData` is
`null`); `reportCall` is the completion-service round-trip.  A parse
failure of its text throws "AI returned a report in an invalid
format."; on success the parsed report is extended with the pipeline's
own `groundingSources` and `satelliteData` (the latter `undefined` when
no satellite phase ran). -/
def generateVerificationReport (parse : String → Option Json)
    (timeData : Json) (reportCall : Except String String)
    (sources : List GroundingSource) (satelliteData : Option Json) :
    Except String Json := do
  let _tod ← jsGetE timeData "estimatedTimeOfDay"
  let txt ← reportCall
  match parse (stripFencesTrim txt) with
  | some reportData =>
    pure (jsSetField (jsSetField reportData "groundingSources" (sourcesJson sources))
            "satelliteData" (satelliteData.getD .undefined))
  | none => .error "AI returned a report in an invalid format."

/-- Outcome of the Imagery Client's `fetch` to the proxy search
endpoint: an ok response with a parsed body, a non-ok response (whose
error body, parsed or defaulted to `{}`, feeds the thrown message), or
a rejection of `fetch`/`.json()` itself. -/
inductive FetchOutcome where
  | ok (body : Json)
  | httpErr (errorData : Json)
  | thrown (msg : String)

/-- The `date || today` choice of `getSatelliteImagery`'s fallback
`searchDate` (JavaScript `||`, so the empty string also falls back to
today). -/
def jsDateOr (date : Option String) (today : String) : String :=
  match date with
  | some d => if d = "" then today else d
  | none => today

/-- `GeminiService.getSatelliteImagery` — the Imagery Client.  The
whole body sits in one try/catch: an ok fetch returns the parsed body
verbatim; any other outcome (non-ok response, network rejection, parse
failure) is caught and replaced by `{available: false, location: {lat,
lon}, searchDate: date or today}`.  `lat` and `lon` are the values the
pipeline passed (untyped). -/
def getSatelliteImagery (env : JsEnv) (lat lon : Json) (date : Option String)
    (outcome : FetchOutcome) : Json :=
  match outcome with
  | .ok body => body
  | _ =>
    .obj [("available", .bool false),
          ("location", .obj [("lat", lat), ("lon", lon)]),
          ("searchDate", .str (jsDateOr date env.todayStr))]

/-- The proxy process environment: the Copernicus credentials may be
absent from `.env`. -/
structure ProxyEnv where
  clientId : Option String
  clientSecret : Option String

/-- `URLSearchParams` stringification of a possibly-undefined
credential: `undefined` becomes the literal string "undefined". -/
def credParam : Option String → String
  | some s => s
  | none => "undefined"

/-- An upstream request the proxy issued while serving one inbound
request: the OAuth2 token fetch (carrying the stringified credentials)
or the catalog query (carrying the constructed URL). -/
inductive UpstreamCall where
  | tokenFetch (clientId clientSecret : String)
  | catalogQuery (url : String)
deriving DecidableEq

/-- Outcome of one upstream stage inside the proxy's try block: a value,
or a thrown error with its message and whether its (possibly nested)
code is EAI_AGAIN. -/
inductive JsOutcome (α : Type) where
  | ok (a : α)
  | err (msg : String) (eaiAgain : Bool)

/-- An HTTP response the proxy sends: status plus JSON body. -/
structure HttpResponse where
  status : Nat
  body : Json

/-- The uniform 500 error envelope of the proxy's catch blocks:
`{error, message, details}` where details is the network hint for
EAI_AGAIN and otherwise echoes the message. -/
def errorEnvelope (kind msg : String) (eaiAgain : Bool) : HttpResponse :=
  { status := 500,
    body := .obj [("error", .str kind),
                  ("message", .str msg),
                  ("details", .str (if eaiAgain then
                      "Network error: Unable to reach Copernicus servers. Check your internet connection."
                    else msg))] }

/-- The query string of `GET /api/satellite/search`; a parameter absent
from the URL is `none`. -/
structure SearchQuery where
  lat : Option String
  lon : Option String
  startDate : Option String
  endDate : Option String
  limit : Option String

/-- JavaScript falsiness of an optional query parameter (`!lat`):
absent or empty. -/
def jsFalsyParam : Option String → Bool
  | none => true
  | some s => s == ""

/-- The `x ? f x : d` date defaulting used for `startDate`/`endDate`
(truthiness, so the empty string also defaults). -/
def jsDateParam (p : Option String) (f : String → String) (d : String) : String :=
  match p with
  | some s => if s = "" then d else f s
  | none => d

/-- `toISOString().split('.')[0] + 'Z'` — seconds-precision ISO form. -/
def isoSeconds (iso : String) : String :=
  headUntil '.' iso ++ "Z"

/-- `endDateStr.split('T')[0]` — the date part reported as `searchDate`. -/
def datePart (s : String) : String :=
  headUntil 'T' s

/-- Mapping of one upstream catalog record to the response shape `{id,
name, date, cloudCover, thumbnail}`; the member reads throw on a
`null`/`undefined` record, as inside the source's `.map` callback. -/
def mapCatalogItem (env : JsEnv) (item : Json) : Except String Json := do
  let id ← jsGetE item "Id"
  let name ← jsGetE item "Name"
  let contentDate ← jsGetE item "ContentDate"
  let date ← jsGetE contentDate "Start"
  let cloudCover ← jsGetE item "CloudCover"
  let s3Path ← jsGetE item "S3Path"
  pure (.obj [("id", id),
              ("name", name),
              ("date", date),
              ("cloudCover", if jsTruthy cloudCover then cloudCover else .num 0),
              ("thumbnail", if jsTruthy s3Path then
                  .str ("https://catalogue.dataspace.copernicus.eu/odata/v1/Products(" ++
                        jsDisplay env id ++ ")/Thumbnail/$value")
                else .null)])

/-- The `location` object of the search response:
`{lat: parseFloat(lat), lon: parseFloat(lon)}`. -/
def searchLocation (js : JsEnv) (q : SearchQuery) : Json :=
  .obj [("lat", .num (js.parseFloatJs (q.lat.getD ""))),
        ("lon", .num (js.parseFloatJs (q.lon.getD "")))]

/-- The success-path body construction of the search handler from the
parsed upstream `searchData`: a populated response when
`searchData.value` is a non-empty array, the `available:false`
empty-imagery response otherwise; member-access and `.map` TypeErrors
propagate to the catch block. -/
def processSearchData (js : JsEnv) (q : SearchQuery) (searchData : Json)
    (endDateStr : String) : Except String Json := do
  let v ← jsGetE searchData "value"
  if jsTruthy v ∧ jsLengthPos v then
    match v with
    | .arr xs => do
      let imagery ← xs.mapM (mapCatalogItem js)
      pure (.obj [("available", .bool true),
                  ("imagery", .arr imagery),
                  ("location", searchLocation js q),
                  ("searchDate", .str (datePart endDateStr)),
                  ("count", .num imagery.length)])
    | _ => .error "searchData.value.map is not a function"
  else
    pure (.obj [("available", .bool false),
                ("imagery", .arr []),
                ("location", searchLocation js q),
                ("searchDate", .str (datePart endDateStr)),
                ("count", .num 0)])

/-- The OData catalog query URL the search handler constructs. -/
def catalogUrl (latS lonS startDateStr endDateStr limitStr : String) : String :=
  "https://catalogue.dataspace.copernicus.eu/odata/v1/Products?$filter=Collection/Name eq \x27SENTINEL-2\x27 and OData.CSC.Intersects(area=geography\x27SRID=4326;POINT(" ++
    lonS ++ " " ++ latS ++ ")\x27) and ContentDate/Start gt " ++ startDateStr ++
    " and ContentDate/Start lt " ++ endDateStr ++
    "&$orderby=ContentDate/Start desc&$top=" ++ limitStr

/-- The `GET /api/satellite/search` handler.  Returns the HTTP response
together with the ordered list of upstream requests it issued.
`tokenOutcome` is the parsed body of the OAuth2 token fetch (or its
failure), `searchOutcome` the parsed body of the catalog query (or its
failure); each `err` covers both a thrown `fetch`/`.json()` and the
handler's own throw on a non-ok status, whose messages feed the catch
block's 500 envelope. -/
def searchHandler (js : JsEnv) (penv : ProxyEnv) (q : SearchQuery)
    (tokenOutcome : JsOutcome Json) (searchOutcome : JsOutcome Json) :
    HttpResponse × List UpstreamCall :=
  if jsFalsyParam q.lat ∨ jsFalsyParam q.lon then
    ({ status := 400,
       body := .obj [("error", .str "Missing required parameters"),
                     ("message", .str "Latitude and longitude are required")] },
     [])
  else
    let calls0 := [UpstreamCall.tokenFetch (credParam penv.clientId) (credParam penv.clientSecret)]
    match tokenOutcome with
    | .err m eai => (errorEnvelope "Search failed" m eai, calls0)
    | .ok authData =>
      match jsGetE authData "access_token" with
      | .error m => (errorEnvelope "Search failed" m false, calls0)
      | .ok _token =>
        let endIso := jsDateParam q.endDate js.parseIso js.nowIso
        let endDateStr := isoSeconds endIso
        let startIso := jsDateParam q.startDate js.parseIso (js.minus30Iso endIso)
        let startDateStr := isoSeconds startIso
        let url := catalogUrl (q.lat.getD "") (q.lon.getD "") startDateStr endDateStr
                     (q.limit.getD "5")
        let calls1 := calls0 ++ [UpstreamCall.catalogQuery url]
        match searchOutcome with
        | .err m eai => (errorEnvelope "Search failed" m eai, calls1)
        | .ok searchData =>
          match processSearchData js q searchData endDateStr with
          | .ok body => ({ status := 200, body := body }, calls1)
          | .error m => (errorEnvelope "Search failed" m false, calls1)

/-- The `POST /api/satellite/auth` handler: one token fetch, then
`{access_token}` on success or the 500 `Authentication failed` envelope
from the catch block. -/
def authHandler (penv : ProxyEnv) (tokenOutcome : JsOutcome Json) :
    HttpResponse × List UpstreamCall :=
  let calls := [UpstreamCall.tokenFetch (credParam penv.clientId) (credParam penv.clientSecret)]
  match tokenOutcome with
  | .err m eai => (errorEnvelope "Authentication failed" m eai, calls)
  | .ok data =>
    match jsGetE data "access_token" with
    | .error m => (errorEnvelope "Authentication failed" m false, calls)
    | .ok t => ({ status := 200, body := .obj [("access_token", t)] }, calls)

/-- The `LogEntry` kinds of `types.ts`. -/
inductive LogType where
  | info
  | processing
  | success
  | warning
  | error
deriving DecidableEq

/-- One reasoning-log entry. -/
structure LogEntry where
  type : LogType
  message : String
  timestamp : String
deriving DecidableEq

/-- The caller-supplied inputs of `runVerification` (the media file
itself only feeds the completion-service calls, which are oracles). -/
structure RunInputs where
  claimedTimestamp : String
  locationContext : String

/-- The external responses one pipeline run happens to receive: the
five completion-service round-trips (each may reject), the satellite
fetch outcome, and the runtime's `JSON.parse`. -/
structure Oracles where
  parse : String → Option Json
  cluesCall : Except String String
  groundingCall : Except String (String × List WebChunk)
  structuringCall : Except String String
  satOutcome : FetchOutcome
  timeCall : Except String String
  reportCall : Except String String

/-- Observable state accumulated during the try block of one run: the
appended log, the Imagery Client invocations (arguments of each
`getSatelliteImagery` call), and whether the phase-5 report call was
entered. -/
structure PipeState where
  log : List LogEntry
  satCalls : List (Json × Json × Option String)
  reportCalled : Bool

/-- `addLogEntry`: append one entry (timestamps are modelled coarsely
with the run's single clock reading). -/
def pushLog (env : JsEnv) (st : PipeState) (t : LogType) (m : String) : PipeState :=
  { st with log := st.log ++ [{ type := t, message := m, timestamp := env.nowIso }] }

/-- Result of the try block of `runVerification`: the final report, or
the message of the exception that escaped. -/
inductive TryResult where
  | success (st : PipeState) (report : Json)
  | failure (st : PipeState) (msg : String)

/-- The observable state a try block ended in. -/
def TryResult.state : TryResult → PipeState
  | .success st _ => st
  | .failure st _ => st

/-- `claimedTimestamp ? claimedTimestamp.split('T')[0] : null` — the
date string handed to phases 3 and 4. -/
def claimedDateOf (inp : RunInputs) : Option String :=
  if inp.claimedTimestamp ≠ "" then some (headUntil 'T' inp.claimedTimestamp)
  else none

/-- Phase 5 of `runVerification` (report synthesis): the processing
entry, then the `generateVerificationReport` call whose rejection
escapes to the catch block. -/
def phase5run (env : JsEnv) (o : Oracles) (st : PipeState)
    (sources : List GroundingSource) (satelliteData : Option Json)
    (timeData : Json) : TryResult :=
  let st := pushLog env st .processing
    "🤖 PHASE 5: Generating final forensic report with Gemini Pro + Thinking Mode..."
  let st := { st with reportCalled := true }
  match generateVerificationReport o.parse timeData o.reportCall sources satelliteData with
  | .error m => .failure st m
  | .ok rep => .success st rep

/-- Phase 4 of `runVerification` (timestamp determination): the
`determineTimestamp` call, then the success/info entries when a usable
time estimate came back (reading `timeData.reasoning.substring` — a
TypeError when `reasoning` is missing) or the warning entry otherwise,
then phase 5. -/
def phase4run (env : JsEnv) (o : Oracles) (inp : RunInputs) (st : PipeState)
    (locationData : Json) (sources : List GroundingSource)
    (satelliteData : Option Json) : TryResult :=
  let st := pushLog env st .processing
    "⏰ PHASE 4: Analyzing shadows and lighting for time determination..."
  match determineTimestamp o.parse locationData (claimedDateOf inp) o.timeCall with
  | .error m => .failure st m
  | .ok timeData =>
    match jsGetE timeData "estimatedTimeOfDay" with
    | .error m => .failure st m
    | .ok est =>
      if jsTruthy est && !(jsStrEq est "unknown") then
        let st := pushLog env st .success ("⏰ Time estimate: " ++ jsDisplay env est)
        match jsGetE timeData "confidence", jsGetE timeData "primaryMethod" with
        | .error m, _ => .failure st m
        | _, .error m => .failure st m
        | .ok conf, .ok pm =>
          let st := pushLog env st .info
            ("📊 Time confidence: " ++ jsDisplay env conf ++ "% (method: " ++ jsDisplay env pm ++ ")")
          match jsGetE timeData "reasoning" with
          | .error m => .failure st m
          | .ok r =>
            match jsSubstring r 100 with
            | .error m => .failure st m
            | .ok rs =>
              let st := pushLog env st .info ("💡 " ++ rs ++ "...")
              phase5run env o st sources satelliteData timeData
      else
        let st := pushLog env st .warning "⚠️ Could not determine time from visual evidence"
        phase5run env o st sources satelliteData timeData

/-- The per-image info entries of phase 3
(`satelliteData.imagery.slice(0, 3).forEach(...)`); member reads on a
degenerate image record throw, carrying the log appended so far. -/
def logImagery (env : JsEnv) (st : PipeState) :
    List Json → Except (PipeState × String) PipeState
  | [] => .ok st
  | img :: rest =>
    match jsGetE img "date" with
    | .error m => .error (st, m)
    | .ok d =>
      match jsGetE img "cloudCover" with
      | .error m => .error (st, m)
      | .ok cc =>
        logImagery env
          (pushLog env st .info
            ("📅 Image from " ++ env.localeDate d ++ " - " ++ jsDisplay env cc ++ "% cloud cover"))
          rest

/-- The body of phase 3 once the coordinate gate was passed: the
processing entry, the recorded `getSatelliteImagery` invocation, the
availability logging, then phase 4 with the fetched data. -/
def phase3fetch (env : JsEnv) (o : Oracles) (inp : RunInputs) (st : PipeState)
    (locationData : Json) (sources : List GroundingSource) (lat lon : Json) : TryResult :=
  let st := pushLog env st .processing "🛰️ PHASE 3: Fetching Copernicus satellite imagery..."
  let dateStr := claimedDateOf inp
  let st := { st with satCalls := st.satCalls ++ [(lat, lon, dateStr)] }
  let satelliteData := getSatelliteImagery env lat lon dateStr o.satOutcome
  match jsGetE satelliteData "available" with
  | .error m => .failure st m
  | .ok av =>
    match jsGetE satelliteData "imagery" with
    | .error m => .failure st m
    | .ok im =>
      if jsTruthy av && jsTruthy im then
        let st := pushLog env st .success
          ("🛰️ Found " ++ jsDisplay env (jsLength im) ++ " satellite images")
        match im with
        | .arr xs =>
          match logImagery env st (xs.take 3) with
          | .error (st2, m) => .failure st2 m
          | .ok st2 => phase4run env o inp st2 locationData sources (some satelliteData)
        | _ => .failure st "satelliteData.imagery.slice is not a function"
      else
        let st := pushLog env st .warning
          "⚠️ No recent satellite imagery available for this location"
        phase4run env o inp st locationData sources (some satelliteData)

/-- Phase 3 of `runVerification` (satellite retrieval): gated on the
JavaScript truthiness of `locationData.latitude &&
locationData.longitude`; when taken it records the Imagery Client
invocation, logs the outcome, and in all cases proceeds to phase 4
(with `satelliteData = null` when skipped). -/
def phase3run (env : JsEnv) (o : Oracles) (inp : RunInputs) (st : PipeState)
    (locationData : Json) (sources : List GroundingSource) : TryResult :=
  match jsGetE locationData "latitude" with
  | .error m => .failure st m
  | .ok lat =>
    match jsGetE locationData "longitude" with
    | .error m => .failure st m
    | .ok lon =>
      if jsTruthy lat && jsTruthy lon then
        phase3fetch env o inp st locationData sources lat lon
      else
        phase4run env o inp st locationData sources none

/-- Phase 2 of `runVerification` (grounded geolocation): the
`findLocationWithGrounding` call, the location/confidence entries (a
TypeError when `locationData` came back `null`), the grounding-sources
entry, then phase 3. -/
def phase2run (env : JsEnv) (o : Oracles) (inp : RunInputs) (st : PipeState) : TryResult :=
  let st := pushLog env st .processing "🔎 PHASE 2: Geolocating with Google Search grounding..."
  match findLocationWithGrounding o.parse o.groundingCall o.structuringCall with
  | .error m => .failure st m
  | .ok (locationData, sources) =>
    match jsGetE locationData "address" with
    | .error m => .failure st m
    | .ok addr =>
      let st := pushLog env st .success
        ("📍 Location identified: " ++ (if jsTruthy addr then jsDisplay env addr else "Unknown"))
      match jsGetE locationData "confidence", jsGetE locationData "accuracy" with
      | .error m, _ => .failure st m
      | _, .error m => .failure st m
      | .ok conf, .ok acc =>
        let st := pushLog env st .info
          ("🎯 Location confidence: " ++ jsDisplay env conf ++ "% (" ++ jsDisplay env acc ++ ")")
        let st := if sources.length > 0 then
            pushLog env st .success ("🔗 Found " ++ toString sources.length ++ " grounding sources")
          else st
        phase3run env o inp st locationData sources

/-- Phase 1 of `runVerification` plus the run preamble: the intro
entries, the clue-extraction call, then phase 2. -/
def phase1run (env : JsEnv) (o : Oracles) (inp : RunInputs) : TryResult :=
  let st : PipeState := { log := [], satCalls := [], reportCalled := false }
  let st := pushLog env st .info "🚀 Starting forensic analysis..."
  let st := pushLog env st .info ("📍 Known region: " ++ inp.locationContext)
  let st := if inp.claimedTimestamp ≠ "" then
      pushLog env st .info "⏰ Mode: VERIFICATION of claimed timestamp"
    else
      pushLog env st .info "⏰ Mode: DETERMINATION - will estimate timestamp from visual evidence"
  let st := pushLog env st .processing "🌍 PHASE 1: Extracting visual clues with Gemini Pro..."
  match o.cluesCall with
  | .error m => .failure st m
  | .ok clues =>
    let st := pushLog env st .success ("✅ Visual clues extracted: " ++ takeJs clues 150 ++ "...")
    phase2run env o inp st

/-- The state `useVerification` exposes after one invocation attempt
settles (`isLoading` back to false). -/
structure RunResult where
  log : List LogEntry
  report : Option Json
  error : Option String
  satCalls : List (Json × Json × Option String)
  reportCalled : Bool

/-- The settlement of one run: on success, `setReport` and the final
success and verdict-summary entries (the report is always an object, so
the total `jsGet` reads are the source's safe accesses); on a caught
exception, `setError` and the final error entry. -/
def finalizeRun (env : JsEnv) (t : TryResult) : RunResult :=
  match t with
  | .success st rep =>
    let st := pushLog env st .success "✅ Verification complete! Report generated."
    let st := pushLog env st .info
      ("📋 Verdict: " ++ jsDisplay env (jsGet rep "verdict") ++ " (" ++
       jsDisplay env (jsGet rep "confidenceScore") ++ "% confidence)")
    { log := st.log, report := some rep, error := none,
      satCalls := st.satCalls, reportCalled := st.reportCalled }
  | .failure st m =>
    let st := pushLog env st .error ("❌ Verification failed: " ++ m)
    { log := st.log, report := none, error := some m,
      satCalls := st.satCalls, reportCalled := st.reportCalled }

/-- `runVerification` of `useVerification.ts`: the five-phase try block
plus its catch/finally settlement. -/
def runVerification (env : JsEnv) (o : Oracles) (inp : RunInputs) : RunResult :=
  finalizeRun env (phase1run env o inp)

/-- Does an object value carry the given field at all (distinguishing
an absent field from one set to a degenerate value)? -/
def objHasField (j : Json) (k : String) : Bool :=
  match j with
  | .obj fields => (fields.find? (fun p => p.1 == k)).isSome
  | _ => false

/-- The terminal success entry of a completed run. -/
def successEntry (env : JsEnv) : LogEntry :=
  { type := .success, message := "✅ Verification complete! Report generated.",
    timestamp := env.nowIso }

/-- The verdict-summary info entry appended after the success entry. -/
def verdictEntry (env : JsEnv) (rep : Json) : LogEntry :=
  { type := .info,
    message := "📋 Verdict: " ++ jsDisplay env (jsGet rep "verdict") ++ " (" ++
               jsDisplay env (jsGet rep "confidenceScore") ++ "% confidence)",
    timestamp := env.nowIso }

/-- The terminal error entry of a rejected run. -/
def errorEntry (env : JsEnv) (m : String) : LogEntry :=
  { type := .error, message := "❌ Verification failed: " ++ m,
    timestamp := env.nowIso }

/-- The state a `logImagery` computation ended in, whether or not it
threw. -/
def exState : Except (PipeState × String) PipeState → PipeState
  | .ok st => st
  | .error (st, _) => st

/-- A concrete runtime environment used by witness runs. -/
def envW : JsEnv :=
  { nowIso := "2024-10-23T12:00:00.000Z",
    parseIso := fun s => s,
    minus30Iso := fun s => s,
    numToString := fun _ => "n",
    parseFloatJs := fun _ => 0,
    localeDate := fun _ => "d" }

/-- Concrete run inputs used by witness runs: no claimed timestamp, the
default region. -/
def inpW : RunInputs := { claimedTimestamp := "", locationContext := "Gaza Strip" }

/-- The empty pipeline state. -/
def st0 : PipeState := { log := [], satCalls := [], reportCalled := false }

/-- A parsed phase-2 structuring result whose latitude is present but
zero (a point on the equator). -/
def locObjZeroLat : Json :=
  .obj [("address", .str "Rafah"),
        ("latitude", .num 0),
        ("longitude", .num (mkRat 689 20)),
        ("confidence", .num 50),
        ("accuracy", .str "city")]

/-- A well-formed parsed phase-4 result. -/
def timeObjW : Json :=
  .obj [("estimatedTimeOfDay", .str "10:00-12:00"),
        ("confidence", .num 80),
        ("primaryMethod", .str "shadows"),
        ("reasoning", .str "short shadows")]

/-- A well-formed parsed phase-5 result. -/
def reportObjW : Json :=
  .obj [("verdict", .str "Verified"), ("confidenceScore", .num 80)]

/-- A concrete `JSON.parse` behaviour keyed on the three response
texts of the witness run. -/
def parseW : String → Option Json := fun s =>
  if s = "S" then some locObjZeroLat
  else if s = "T" then some timeObjW
  else if s = "R" then some reportObjW
  else none

/-- Oracles of a run in which every call succeeds, every response
parses, and phase 2 yields `locObjZeroLat`. -/
def oraclesZeroLat : Oracles :=
  { parse := parseW,
    cluesCall := .ok "concrete rubble, palm trees",
    groundingCall := .ok ("Rafah, Gaza Strip", []),
    structuringCall := .ok "S",
    satOutcome := .thrown "network unreachable",
    timeCall := .ok "T",
    reportCall := .ok "R" }

/-- Oracles of a run whose phase-1 call rejects. -/
def oraclesFailClues : Oracles :=
  { oraclesZeroLat with cluesCall := .error "boom" }

/-- Oracles of a run in which nothing parses as JSON and phase 5 is
reached (phases 2 and 4 absorb their parse failures). -/
def oraclesNoParse : Oracles :=
  { oraclesZeroLat with parse := fun _ => none }

/-- A concrete proxy environment with both credentials configured. -/
def penvW : ProxyEnv := { clientId := some "id", clientSecret := some "sec" }

/-- A concrete proxy environment missing the client id. -/
def penvNoId : ProxyEnv := { clientId := none, clientSecret := some "sec" }

/-- A fully-populated search query. -/
def qFull : SearchQuery :=
  { lat := some "31.5", lon := some "34.45",
    startDate := some "2024-10-01", endDate := some "2024-10-23",
    limit := some "3" }

/-- A search query missing `lat`. -/
def qNoLat : SearchQuery :=
  { lat := none, lon := some "34.45",
    startDate := none, endDate := none, limit := none }

/-- A successful token fetch. -/
def authOkW : JsOutcome Json := .ok (.obj [("access_token", .str "tok")])

/-- A failing token fetch surfacing the handler's own throw. -/
def tokFailW : JsOutcome Json := .err "Authentication failed" false

/-- An upstream catalog response with zero matching products. -/
def srchZero : JsOutcome Json := .ok (.obj [("value", .arr [])])

/-- The fallback latitude constant of `findLocationWithGrounding` is
the decimal 31.5. -/
theorem fallbackLatitude_eq : mkRat 63 2 = 31.5 := by
  norm_num [Rat.mkRat_eq_div]

/-- The fallback longitude constant of `findLocationWithGrounding` is
the decimal 34.45. -/
theorem fallbackLongitude_eq : mkRat 689 20 = 34.45 := by
  norm_num [Rat.mkRat_eq_div]

theorem state_failure (st : PipeState) (m : String) :
    (TryResult.failure st m).state = st := rfl

theorem state_success (st : PipeState) (rep : Json) :
    (TryResult.success st rep).state = st := rfl

theorem pushLog_satCalls (env : JsEnv) (st : PipeState) (t : LogType) (m : String) :
    (pushLog env st t m).satCalls = st.satCalls := rfl

theorem pushLog_reportCalled (env : JsEnv) (st : PipeState) (t : LogType) (m : String) :
    (pushLog env st t m).reportCalled = st.reportCalled := rfl

theorem phase5run_state_satCalls (env : JsEnv) (o : Oracles) (st : PipeState)
    (sources : List GroundingSource) (sd : Option Json) (td : Json) :
    ((phase5run env o st sources sd td).state).satCalls = st.satCalls := by
  unfold phase5run
  split <;> simp [TryResult.state, pushLog]

theorem phase5run_state_reportCalled (env : JsEnv) (o : Oracles) (st : PipeState)
    (sources : List GroundingSource) (sd : Option Json) (td : Json) :
    ((phase5run env o st sources sd td).state).reportCalled = true := by
  unfold phase5run
  split <;> simp [TryResult.state, pushLog]

theorem phase4run_state_satCalls (env : JsEnv) (o : Oracles) (inp : RunInputs)
    (st : PipeState) (ld : Json) (sources : List GroundingSource) (sd : Option Json) :
    ((phase4run env o inp st ld sources sd).state).satCalls = st.satCalls := by
  unfold phase4run
  split
  · simp [TryResult.state, pushLog]
  · split
    · simp [TryResult.state, pushLog]
    · split
      · split
        · simp [TryResult.state, pushLog]
        · simp [TryResult.state, pushLog]
        · split
          · simp [TryResult.state, pushLog]
          · split
            · simp [TryResult.state, pushLog]
            · simp [phase5run_state_satCalls, pushLog]
      · simp [phase5run_state_satCalls, pushLog]

theorem logImagery_exState_satCalls (env : JsEnv) (l : List Json) (st : PipeState) :
    (exState (logImagery env st l)).satCalls = st.satCalls := by
  induction l generalizing st with
  | nil => simp [logImagery, exState]
  | cons img rest ih =>
    unfold logImagery
    split
    · simp [exState]
    · split
      · simp [exState]
      · rw [ih]; simp [pushLog]

theorem logImagery_error_satCalls (env : JsEnv) (l : List Json) (st st2 : PipeState)
    (m : String) (h : logImagery env st l = .error (st2, m)) :
    st2.satCalls = st.satCalls := by
  have h2 := logImagery_exState_satCalls env l st
  rw [h] at h2
  simpa [exState] using h2

theorem logImagery_ok_satCalls (env : JsEnv) (l : List Json) (st st2 : PipeState)
    (h : logImagery env st l = .ok st2) :
    st2.satCalls = st.satCalls := by
  have h2 := logImagery_exState_satCalls env l st
  rw [h] at h2
  simpa [exState] using h2

theorem phase3fetch_state_satCalls (env : JsEnv) (o : Oracles) (inp : RunInputs)
    (st : PipeState) (ld : Json) (sources : List GroundingSource) (lat lon : Json) :
    ((phase3fetch env o inp st ld sources lat lon).state).satCalls =
      st.satCalls ++ [(lat, lon, claimedDateOf inp)] := by
  unfold phase3fetch
  dsimp only
  repeat' split
  all_goals (try simp [state_failure, state_success, pushLog, phase4run_state_satCalls])
  all_goals rename_i heq
  · rw [logImagery_error_satCalls _ _ _ _ _ heq]
    simp [pushLog]
  · rw [logImagery_ok_satCalls _ _ _ _ heq]
    simp [pushLog]

theorem phase3run_state_satCalls (env : JsEnv) (o : Oracles) (inp : RunInputs)
    (st : PipeState) (ld : Json) (sources : List GroundingSource) :
    ((phase3run env o inp st ld sources).state).satCalls =
      match jsGetE ld "latitude", jsGetE ld "longitude" with
      | .ok lat, .ok lon =>
        if jsTruthy lat && jsTruthy lon then st.satCalls ++ [(lat, lon, claimedDateOf inp)]
        else st.satCalls
      | .error _, _ => st.satCalls
      | _, .error _ => st.satCalls := by
  unfold phase3run
  cases hlat : jsGetE ld "latitude" with
  | error m => simp [TryResult.state]
  | ok lat =>
    cases hlon : jsGetE ld "longitude" with
    | error m => simp [TryResult.state]
    | ok lon =>
      by_cases hg : (jsTruthy lat && jsTruthy lon) = true
      · simp [hg, phase3fetch_state_satCalls]
      · simp only [Bool.not_eq_true] at hg
        simp [hg, phase4run_state_satCalls]

theorem fallback_address (t : String) :
    jsGetE (fallbackLocationData t) "address" = .ok (.str t) := rfl

theorem fallback_confidence (t : String) :
    jsGetE (fallbackLocationData t) "confidence" = .ok (.num 30) := rfl

theorem fallback_accuracy (t : String) :
    jsGetE (fallbackLocationData t) "accuracy" = .ok (.str "region") := rfl

theorem fallback_latitude (t : String) :
    jsGetE (fallbackLocationData t) "latitude" = .ok (.num (mkRat 63 2)) := rfl

theorem fallback_longitude (t : String) :
    jsGetE (fallbackLocationData t) "longitude" = .ok (.num (mkRat 689 20)) := rfl

theorem timeFallback_tod (t : String) :
    jsGetE (timeFallback t) "estimatedTimeOfDay" = .ok (.str "unknown") := rfl

/-- When the structuring response text does not parse,
`findLocationWithGrounding` resolves with the fallback estimate and the
accumulated sources. -/
theorem findLocation_fallback (parse : String → Option Json) (gtxt : String)
    (chunks : List WebChunk) (stxt : String)
    (hp : parse (stripFencesTrim stxt) = none) :
    findLocationWithGrounding parse (.ok (gtxt, chunks)) (.ok stxt) =
      .ok (fallbackLocationData gtxt, sourcesOfChunks chunks) := by
  unfold findLocationWithGrounding
  simp [Bind.bind, Except.bind, hp, pure, Except.pure]

/-- When the phase-4 response text does not parse, `determineTimestamp`
resolves with the error fallback (given that the prompt could be built,
i.e. the three reads on `locationData` succeeded). -/
theorem determineTimestamp_fallback (parse : String → Option Json) (ld : Json)
    (cd : Option String) (t : String)
    (a : Json) (ha : jsGetE ld "address" = .ok a)
    (la : Json) (hla : jsGetE ld "latitude" = .ok la)
    (lo : Json) (hlo : jsGetE ld "longitude" = .ok lo)
    (hp : parse (stripFencesTrim t) = none) :
    determineTimestamp parse ld cd (.ok t) = .ok (timeFallback t) := by
  unfold determineTimestamp
  rw [ha, hla, hlo]
  simp [Bind.bind, Except.bind, hp, pure, Except.pure]

/-- When the phase-5 response text does not parse,
`generateVerificationReport` throws the invalid-format error (given the
prompt could be built). -/
theorem generateReport_parse_failure (parse : String → Option Json) (td : Json)
    (sources : List GroundingSource) (sd : Option Json) (rep : String)
    (tod : Json) (htd : jsGetE td "estimatedTimeOfDay" = .ok tod)
    (hp : parse (stripFencesTrim rep) = none) :
    generateVerificationReport parse td (.ok rep) sources sd =
      .error "AI returned a report in an invalid format." := by
  unfold generateVerificationReport
  rw [htd]
  simp [Bind.bind, Except.bind, hp]

/-- The log a settled run carries: the try block's log plus the
terminal entries the settlement appends. -/
theorem finalizeRun_log (env : JsEnv) (t : TryResult) :
    (finalizeRun env t).log =
      match t with
      | .success st rep => st.log ++ [successEntry env, verdictEntry env rep]
      | .failure st m => st.log ++ [errorEntry env m] := by
  cases t <;>
    simp [finalizeRun, pushLog, successEntry, verdictEntry, errorEntry, List.append_assoc]

theorem finalizeRun_failure (env : JsEnv) (st : PipeState) (m : String) :
    finalizeRun env (.failure st m) =
      { log := st.log ++ [errorEntry env m], report := none, error := some m,
        satCalls := st.satCalls, reportCalled := st.reportCalled } := by
  simp [finalizeRun, pushLog, errorEntry]

theorem finalizeRun_success (env : JsEnv) (st : PipeState) (rep : Json) :
    finalizeRun env (.success st rep) =
      { log := st.log ++ [successEntry env, verdictEntry env rep], report := some rep,
        error := none, satCalls := st.satCalls, reportCalled := st.reportCalled } := by
  simp [finalizeRun, pushLog, successEntry, verdictEntry, List.append_assoc]

/-- Every `HTTP 200` body the search handler produces carries the
`imagery` field. -/
theorem processSearchData_imagery (js : JsEnv) (q : SearchQuery) (sd : Json)
    (eds : String) (body : Json)
    (h : processSearchData js q sd eds = .ok body) :
    objHasField body "imagery" = true := by
  unfold processSearchData at h
  cases hv : jsGetE sd "value" with
  | error m =>
    rw [hv] at h
    simp [Bind.bind, Except.bind] at h
  | ok v =>
    rw [hv] at h
    simp only [Bind.bind, Except.bind] at h
    by_cases hc : (jsTruthy v = true ∧ jsLengthPos v = true)
    · rw [if_pos hc] at h
      cases v with
      | arr xs =>
        dsimp only at h
        cases hm : xs.mapM (mapCatalogItem js) with
        | error m =>
          rw [hm] at h
          simp at h
        | ok imagery =>
          rw [hm] at h
          simp only [pure, Except.pure, Except.ok.injEq] at h
          subst h
          rfl
      | undefined => simp at h
      | null => simp at h
      | bool b => simp at h
      | num q => simp at h
      | str s => simp at h
      | obj fields => simp at h
    · rw [if_neg hc] at h
      simp only [pure, Except.pure, Except.ok.injEq] at h
      subst h
      rfl

/-- Claim C1: for every phase-5 (report synthesis) completion-service
response whose text, after stripping code fences, does not parse as
JSON, the pipeline run rejects with the invalid-report-format error
message, appends an error log entry carrying that message, and returns
no partial report (the report state stays null).  Stated over every
pipeline state in which phase 5 is entered. -/
theorem claim_phase5_parse_failure_aborts_run
    (env : JsEnv) (o : Oracles) (st : PipeState)
    (sources : List GroundingSource) (satelliteData : Option Json) (timeData : Json)
    (tod : Json) (htd : jsGetE timeData "estimatedTimeOfDay" = .ok tod)
    (rep : String) (hrep : o.reportCall = .ok rep)
    (hp : o.parse (stripFencesTrim rep) = none) :
    (finalizeRun env (phase5run env o st sources satelliteData timeData)).report = none ∧
    (finalizeRun env (phase5run env o st sources satelliteData timeData)).error =
      some "AI returned a report in an invalid format." ∧
    (finalizeRun env (phase5run env o st sources satelliteData timeData)).log.getLast? =
      some (errorEntry env "AI returned a report in an invalid format.") := by
  have hg := generateReport_parse_failure o.parse timeData sources satelliteData rep tod htd hp
  unfold phase5run
  rw [hrep, hg]
  dsimp only
  rw [finalizeRun_failure]
  refine ⟨rfl, rfl, ?_⟩
  rw [List.getLast?_concat]

theorem claim_phase5_parse_failure_aborts_run_witness :
    (finalizeRun envW (phase5run envW oraclesNoParse st0 [] none (Json.obj []))).report = none ∧
    (finalizeRun envW (phase5run envW oraclesNoParse st0 [] none (Json.obj []))).error =
      some "AI returned a report in an invalid format." ∧
    (finalizeRun envW (phase5run envW oraclesNoParse st0 [] none (Json.obj []))).log.getLast? =
      some (errorEntry envW "AI returned a report in an invalid format.") :=
  claim_phase5_parse_failure_aborts_run envW oraclesNoParse st0 [] none (Json.obj [])
    .undefined rfl "R" rfl rfl

/-- Claim C2: for every phase-2 structuring-call response whose text,
after stripping code fences, does not parse as JSON,
`findLocationWithGrounding` returns (does not throw) the fallback
estimate with confidence 30 and accuracy "region", retaining the raw
grounded free text as the address, and the pipeline run continues to
phase 3 (the Imagery Client is invoked, at the fallback coordinates)
rather than aborting. -/
theorem claim_phase2_parse_failure_fallback_continues :
    (∀ (parse : String → Option Json) (gtxt : String) (chunks : List WebChunk) (stxt : String),
      parse (stripFencesTrim stxt) = none →
      findLocationWithGrounding parse (.ok (gtxt, chunks)) (.ok stxt) =
        .ok (fallbackLocationData gtxt, sourcesOfChunks chunks) ∧
      jsGet (fallbackLocationData gtxt) "confidence" = .num 30 ∧
      jsGet (fallbackLocationData gtxt) "accuracy" = .str "region" ∧
      jsGet (fallbackLocationData gtxt) "address" = .str gtxt) ∧
    (∀ (env : JsEnv) (o : Oracles) (inp : RunInputs) (st : PipeState)
       (gtxt : String) (chunks : List WebChunk) (stxt : String),
      o.groundingCall = .ok (gtxt, chunks) → o.structuringCall = .ok stxt →
      o.parse (stripFencesTrim stxt) = none →
      ((phase2run env o inp st).state).satCalls =
        st.satCalls ++ [(Json.num (mkRat 63 2), Json.num (mkRat 689 20), claimedDateOf inp)]) := by
  constructor
  · intro parse gtxt chunks stxt hp
    exact ⟨findLocation_fallback parse gtxt chunks stxt hp, rfl, rfl, rfl⟩
  · intro env o inp st gtxt chunks stxt hg hs hp
    have htr : (jsTruthy (Json.num (mkRat 63 2)) && jsTruthy (Json.num (mkRat 689 20))) = true := by
      decide
    unfold phase2run
    rw [hg, hs, findLocation_fallback _ _ _ _ hp]
    dsimp only
    rw [fallback_address gtxt]
    dsimp only
    rw [fallback_confidence gtxt, fallback_accuracy gtxt]
    dsimp only
    by_cases hl : (sourcesOfChunks chunks).length > 0
    · rw [if_pos hl, phase3run_state_satCalls, fallback_latitude gtxt, fallback_longitude gtxt]
      dsimp only
      simp [htr, pushLog]
    · rw [if_neg hl, phase3run_state_satCalls, fallback_latitude gtxt, fallback_longitude gtxt]
      dsimp only
      simp [htr, pushLog]

theorem claim_phase2_parse_failure_fallback_continues_witness :
    (findLocationWithGrounding (fun _ => none) (.ok ("grounded text", [])) (.ok "S") =
      .ok (fallbackLocationData "grounded text", sourcesOfChunks [])) ∧
    ((phase2run envW oraclesNoParse inpW st0).state).satCalls =
      [(Json.num (mkRat 63 2), Json.num (mkRat 689 20), claimedDateOf inpW)] := by
  constructor
  · exact (claim_phase2_parse_failure_fallback_continues.1
      (fun _ => none) "grounded text" [] "S" rfl).1
  · have h := claim_phase2_parse_failure_fallback_continues.2
      envW oraclesNoParse inpW st0 "Rafah, Gaza Strip" [] "S" rfl rfl rfl
    simpa [st0] using h

/-- Claim C3: for every phase-4 completion-service response whose text,
after stripping code fences, does not parse as JSON,
`determineTimestamp` never raises and returns the fallback estimate
with primaryMethod "error", confidence 0 and estimatedTimeOfDay
"unknown", and the pipeline run continues to phase 5 (the report call
is entered). -/
theorem claim_phase4_parse_failure_fallback_continues :
    (∀ (parse : String → Option Json) (ld : Json) (cd : Option String) (t : String)
       (a : Json), jsGetE ld "address" = .ok a →
       ∀ (la : Json), jsGetE ld "latitude" = .ok la →
       ∀ (lo : Json), jsGetE ld "longitude" = .ok lo →
       parse (stripFencesTrim t) = none →
       determineTimestamp parse ld cd (.ok t) = .ok (timeFallback t) ∧
       jsGet (timeFallback t) "primaryMethod" = .str "error" ∧
       jsGet (timeFallback t) "confidence" = .num 0 ∧
       jsGet (timeFallback t) "estimatedTimeOfDay" = .str "unknown") ∧
    (∀ (env : JsEnv) (o : Oracles) (inp : RunInputs) (st : PipeState) (ld : Json)
       (sources : List GroundingSource) (sd : Option Json) (t : String)
       (a : Json), jsGetE ld "address" = .ok a →
       ∀ (la : Json), jsGetE ld "latitude" = .ok la →
       ∀ (lo : Json), jsGetE ld "longitude" = .ok lo →
       o.timeCall = .ok t →
       o.parse (stripFencesTrim t) = none →
       ((phase4run env o inp st ld sources sd).state).reportCalled = true) := by
  constructor
  · intro parse ld cd t a ha la hla lo hlo hp
    exact ⟨determineTimestamp_fallback parse ld cd t a ha la hla lo hlo hp, rfl, rfl, rfl⟩
  · intro env o inp st ld sources sd t a ha la hla lo hlo ht hp
    have hcond : (jsTruthy (Json.str "unknown") && !(jsStrEq (Json.str "unknown") "unknown")) =
        false := by decide
    unfold phase4run
    rw [ht, determineTimestamp_fallback o.parse ld (claimedDateOf inp) t a ha la hla lo hlo hp]
    dsimp only
    rw [timeFallback_tod t]
    dsimp only
    simp [hcond, phase5run_state_reportCalled]

theorem claim_phase4_parse_failure_fallback_continues_witness :
    (determineTimestamp (fun _ => none) locObjZeroLat none (.ok "T") =
      .ok (timeFallback "T")) ∧
    ((phase4run envW oraclesNoParse inpW st0 locObjZeroLat [] none).state).reportCalled = true := by
  constructor
  · exact (claim_phase4_parse_failure_fallback_continues.1
      (fun _ => none) locObjZeroLat none "T" (.str "Rafah") rfl (.num 0) rfl
      (.num (mkRat 689 20)) rfl rfl).1
  · exact claim_phase4_parse_failure_fallback_continues.2
      envW oraclesNoParse inpW st0 locObjZeroLat [] none "T" (.str "Rafah") rfl
      (.num 0) rfl (.num (mkRat 689 20)) rfl rfl rfl

/-- Claim C4: for every input (lat, lon, date), if the Imagery Client's
search encounters any transport or upstream error (non-ok HTTP response
or thrown exception), `getSatelliteImagery` never raises: it returns an
available-false result carrying the query coordinates and a search date
(the given date; today when the date is absent — or the empty string,
which JavaScript `||` also replaces by today). -/
theorem claim_imagery_client_error_fallback (env : JsEnv) (lat lon : Json)
    (date : Option String) (outcome : FetchOutcome)
    (h : ∀ b, outcome ≠ FetchOutcome.ok b) :
    getSatelliteImagery env lat lon date outcome =
      .obj [("available", .bool false),
            ("location", .obj [("lat", lat), ("lon", lon)]),
            ("searchDate", .str (jsDateOr date env.todayStr))] := by
  cases outcome with
  | ok b => exact absurd rfl (h b)
  | httpErr e => rfl
  | thrown m => rfl

theorem claim_imagery_client_error_fallback_witness :
    getSatelliteImagery envW (.num 1) (.num 2) (some "2024-10-05") (.thrown "fetch failed") =
      .obj [("available", .bool false),
            ("location", .obj [("lat", .num 1), ("lon", .num 2)]),
            ("searchDate", .str "2024-10-05")] := by
  have h := claim_imagery_client_error_fallback envW (.num 1) (.num 2)
    (some "2024-10-05") (.thrown "fetch failed") (fun b hb => FetchOutcome.noConfusion hb)
  rw [show jsDateOr (some "2024-10-05") envW.todayStr = "2024-10-05" from rfl] at h
  exact h

/-- Claim C5: for every Credential Proxy search request in which the
lat or the lon query parameter is missing, the handler responds with
HTTP 400, an error body whose error kind is "Missing required
parameters", and performs no upstream call at all (neither the token
fetch nor the catalog query appears in the upstream-call ledger). -/
theorem claim_search_missing_params_400_no_upstream (js : JsEnv) (penv : ProxyEnv)
    (q : SearchQuery) (tok srch : JsOutcome Json)
    (h : q.lat = none ∨ q.lon = none) :
    searchHandler js penv q tok srch =
      ({ status := 400,
         body := .obj [("error", .str "Missing required parameters"),
                       ("message", .str "Latitude and longitude are required")] }, []) := by
  unfold searchHandler
  rcases h with h | h <;> rw [h] <;> simp [jsFalsyParam]

theorem claim_search_missing_params_400_no_upstream_witness :
    searchHandler envW penvW qNoLat authOkW srchZero =
      ({ status := 400,
         body := .obj [("error", .str "Missing required parameters"),
                       ("message", .str "Latitude and longitude are required")] }, []) :=
  claim_search_missing_params_400_no_upstream envW penvW qNoLat authOkW srchZero
    (Or.inl rfl)

/-- Claim C6 counterexample: a complete successful run in which the
phase-2 LocationEstimate carries both coordinates (latitude 0,
longitude 34.45 — present, not absent), yet the Imagery Client is never
invoked, because the gate tests JavaScript truthiness and 0 is falsy.
This falsifies "invoked exactly when latitude and longitude are
present". -/
theorem claim_phase3_gate_counterexample :
    jsGet locObjZeroLat "latitude" = Json.num 0 ∧
    jsGet locObjZeroLat "longitude" = Json.num (mkRat 689 20) ∧
    jsGet locObjZeroLat "latitude" ≠ Json.undefined ∧
    jsGet locObjZeroLat "longitude" ≠ Json.undefined ∧
    (runVerification envW oraclesZeroLat inpW).report.isSome = true ∧
    (runVerification envW oraclesZeroLat inpW).satCalls = [] := by
  refine ⟨rfl, rfl, ?_, ?_, rfl, rfl⟩
  · intro h
    rw [show jsGet locObjZeroLat "latitude" = Json.num 0 from rfl] at h
    exact Json.noConfusion h
  · intro h
    rw [show jsGet locObjZeroLat "longitude" = Json.num (mkRat 689 20) from rfl] at h
    exact Json.noConfusion h

/-- Claim C6 (amended): phase 3 (satellite retrieval) executes if and
only if the phase-2 locationData's latitude and longitude are both
JavaScript-truthy (present and nonzero/non-empty): the Imagery Client
is invoked exactly once, with those values, when both are truthy, and
is skipped otherwise — so a present-but-zero coordinate skips
phase 3. -/
theorem claim_phase3_gate_truthiness (env : JsEnv) (o : Oracles) (inp : RunInputs)
    (st : PipeState) (ld : Json) (sources : List GroundingSource) (lat lon : Json)
    (hlat : jsGetE ld "latitude" = .ok lat) (hlon : jsGetE ld "longitude" = .ok lon) :
    ((phase3run env o inp st ld sources).state).satCalls =
      (if jsTruthy lat && jsTruthy lon then st.satCalls ++ [(lat, lon, claimedDateOf inp)]
       else st.satCalls) := by
  rw [phase3run_state_satCalls, hlat, hlon]

theorem claim_phase3_gate_truthiness_witness :
    ((phase3run envW oraclesZeroLat inpW st0 locObjZeroLat []).state).satCalls = [] := by
  have h := claim_phase3_gate_truthiness envW oraclesZeroLat inpW st0 locObjZeroLat []
    (.num 0) (.num (mkRat 689 20)) rfl rfl
  rw [show (jsTruthy (Json.num 0) && jsTruthy (Json.num (mkRat 689 20))) = false from by decide]
    at h
  simpa [st0] using h

/-- Claim C7 counterexample: the proxy's zero-match search response —
a SatelliteResult produced at the public interface — carries
`available = false` while its `imagery` field is present (an empty
array), falsifying "imagery is non-absent iff available = true". -/
theorem claim_imagery_presence_counterexample :
    (searchHandler envW penvW qFull authOkW srchZero).1.status = 200 ∧
    jsGet (searchHandler envW penvW qFull authOkW srchZero).1.body "available" =
      Json.bool false ∧
    objHasField (searchHandler envW penvW qFull authOkW srchZero).1.body "imagery" = true ∧
    jsGet (searchHandler envW penvW qFull authOkW srchZero).1.body "imagery" = Json.arr [] ∧
    ¬(objHasField (searchHandler envW penvW qFull authOkW srchZero).1.body "imagery" = true ↔
      jsGet (searchHandler envW penvW qFull authOkW srchZero).1.body "available" =
        Json.bool true) := by
  refine ⟨rfl, rfl, rfl, rfl, ?_⟩
  intro hiff
  have hx := hiff.mp rfl
  rw [show jsGet (searchHandler envW penvW qFull authOkW srchZero).1.body "available" =
      Json.bool false from rfl] at hx
  exact Bool.noConfusion (Json.bool.inj hx)

/-- Claim C7 (amended): every body the search handler serves with HTTP
200 carries the `imagery` field (on zero matches it is a present but
empty array next to `available = false`); the `imagery` field is
absent exactly in the Imagery Client's error fallback, which carries
`available = false`. -/
theorem claim_imagery_presence_amended :
    (∀ (js : JsEnv) (penv : ProxyEnv) (q : SearchQuery) (tok srch : JsOutcome Json),
      (searchHandler js penv q tok srch).1.status = 200 →
      objHasField (searchHandler js penv q tok srch).1.body "imagery" = true) ∧
    (∀ (env : JsEnv) (lat lon : Json) (date : Option String) (outcome : FetchOutcome),
      (∀ b, outcome ≠ FetchOutcome.ok b) →
      jsGet (getSatelliteImagery env lat lon date outcome) "available" = Json.bool false ∧
      objHasField (getSatelliteImagery env lat lon date outcome) "imagery" = false) := by
  constructor
  · intro js penv q tok srch
    unfold searchHandler
    by_cases hq : (jsFalsyParam q.lat ∨ jsFalsyParam q.lon)
    · rw [if_pos hq]
      intro hs
      simp at hs
    · rw [if_neg hq]
      cases tok with
      | err m e =>
        intro hs
        simp [errorEnvelope] at hs
      | ok authData =>
        dsimp only
        cases hat : jsGetE authData "access_token" with
        | error m =>
          intro hs
          simp [errorEnvelope] at hs
        | ok tk =>
          dsimp only
          cases srch with
          | err m e =>
            intro hs
            simp [errorEnvelope] at hs
          | ok searchData =>
            dsimp only
            split
            · next body hps =>
              intro _
              exact processSearchData_imagery _ _ _ _ _ hps
            · next m hps =>
              intro hs
              simp [errorEnvelope] at hs
  · intro env lat lon date outcome h
    cases outcome with
    | ok b => exact absurd rfl (h b)
    | httpErr e => exact ⟨rfl, rfl⟩
    | thrown m => exact ⟨rfl, rfl⟩

theorem claim_imagery_presence_amended_witness :
    objHasField (searchHandler envW penvW qFull authOkW srchZero).1.body "imagery" = true ∧
    (jsGet (getSatelliteImagery envW (.num 1) (.num 2) none (.thrown "x")) "available" =
       Json.bool false ∧
     objHasField (getSatelliteImagery envW (.num 1) (.num 2) none (.thrown "x")) "imagery" =
       false) :=
  ⟨claim_imagery_presence_amended.1 envW penvW qFull authOkW srchZero rfl,
   claim_imagery_presence_amended.2 envW (.num 1) (.num 2) none (.thrown "x")
     (fun _ hb => FetchOutcome.noConfusion hb)⟩

/-- Claim C8 counterexample: a completed successful run whose final
reasoning-log entry is the verdict-summary entry of kind info — not of
kind success or error — falsifying "the final entry is of kind success
or of kind error". -/
theorem claim_terminal_entry_counterexample :
    (runVerification envW oraclesZeroLat inpW).log.getLast?.map LogEntry.type =
      some LogType.info ∧
    ¬((runVerification envW oraclesZeroLat inpW).log.getLast?.map LogEntry.type =
        some LogType.success ∨
      (runVerification envW oraclesZeroLat inpW).log.getLast?.map LogEntry.type =
        some LogType.error) := by
  have hlast : (runVerification envW oraclesZeroLat inpW).log.getLast?.map LogEntry.type =
      some LogType.info := rfl
  refine ⟨hlast, ?_⟩
  rw [hlast]
  decide

/-- Claim C8 (amended): for every completed pipeline invocation
attempt, the reasoning log ends with a terminal group determined by the
outcome: on rejection the final entry is the error entry carrying the
message; on success the log ends with the success entry followed by one
final verdict-summary entry of kind info (so the final entry is then
info, with success immediately before it). -/
theorem claim_terminal_entry_amended (env : JsEnv) (o : Oracles) (inp : RunInputs) :
    (∀ m, (runVerification env o inp).error = some m →
      (runVerification env o inp).log.getLast? = some (errorEntry env m)) ∧
    (∀ rep, (runVerification env o inp).report = some rep →
      ∃ l, (runVerification env o inp).log =
        l ++ [successEntry env, verdictEntry env rep]) := by
  unfold runVerification
  cases h : phase1run env o inp with
  | success st rep0 =>
    rw [finalizeRun_success]
    constructor
    · intro m hm
      simp at hm
    · intro rep hrep
      simp only [Option.some.injEq] at hrep
      subst hrep
      exact ⟨st.log, rfl⟩
  | failure st m0 =>
    rw [finalizeRun_failure]
    constructor
    · intro m hm
      simp only [Option.some.injEq] at hm
      subst hm
      exact List.getLast?_concat _
    · intro rep hrep
      simp at hrep

theorem claim_terminal_entry_amended_witness :
    (runVerification envW oraclesFailClues inpW).log.getLast? =
      some (errorEntry envW "boom") :=
  (claim_terminal_entry_amended envW oraclesFailClues inpW).1 "boom" rfl

/-- Claim C9 counterexample: with the client id absent from the proxy
configuration, a search request does not fail fast and produces no
AuthConfigurationError: the proxy issues the upstream token fetch with
the literal string "undefined" as client id, and the failing token
fetch surfaces as the generic 500 "Search failed"/"Authentication
failed" envelope. -/
theorem claim_auth_config_counterexample :
    (searchHandler envW penvNoId qFull tokFailW srchZero).2 =
      [UpstreamCall.tokenFetch "undefined" "sec"] ∧
    (searchHandler envW penvNoId qFull tokFailW srchZero).2 ≠ [] ∧
    (searchHandler envW penvNoId qFull tokFailW srchZero).1.status = 500 ∧
    jsGet (searchHandler envW penvNoId qFull tokFailW srchZero).1.body "error" =
      Json.str "Search failed" ∧
    jsGet (searchHandler envW penvNoId qFull tokFailW srchZero).1.body "message" =
      Json.str "Authentication failed" ∧
    jsGet (searchHandler envW penvNoId qFull tokFailW srchZero).1.body "error" ≠
      Json.str "AuthConfigurationError" := by
  refine ⟨rfl, ?_, rfl, rfl, rfl, ?_⟩
  · intro h
    rw [show (searchHandler envW penvNoId qFull tokFailW srchZero).2 =
        [UpstreamCall.tokenFetch "undefined" "sec"] from rfl] at h
    exact List.noConfusion h
  · intro h
    rw [show jsGet (searchHandler envW penvNoId qFull tokFailW srchZero).1.body "error" =
        Json.str "Search failed" from rfl] at h
    have h2 := Json.str.inj h
    exact absurd h2 (by decide)

/-- Claim C9 (amended): when the upstream client id is absent from the
proxy's configuration, the first request that needs it does not fail
fast: the handler stringifies the missing credential to the literal
"undefined", issues the upstream token fetch with it, and a failing
token fetch surfaces as the generic "Search failed" 500 envelope
carrying the throw's message — no AuthConfigurationError exists in the
program. -/
theorem claim_missing_credentials_generic_failure (js : JsEnv) (penv : ProxyEnv)
    (q : SearchQuery) (srch : JsOutcome Json) (m : String) (eai : Bool)
    (hid : penv.clientId = none)
    (hlat : jsFalsyParam q.lat = false) (hlon : jsFalsyParam q.lon = false) :
    searchHandler js penv q (.err m eai) srch =
      (errorEnvelope "Search failed" m eai,
       [UpstreamCall.tokenFetch "undefined" (credParam penv.clientSecret)]) := by
  unfold searchHandler
  rw [if_neg (by simp [hlat, hlon]), hid]
  rfl

theorem claim_missing_credentials_generic_failure_witness :
    searchHandler envW penvNoId qFull (.err "Authentication failed" false) srchZero =
      (errorEnvelope "Search failed" "Authentication failed" false,
       [UpstreamCall.tokenFetch "undefined" "sec"]) := by
  have h := claim_missing_credentials_generic_failure envW penvNoId qFull srchZero
    "Authentication failed" false rfl rfl rfl
  exact h

/-- Claim C10: on every phase-2 parse failure the fallback
LocationEstimate's coordinates are the fixed constants latitude 31.5
and longitude 34.45 (the Gaza region), regardless of the grounded free
text that is retained as the address — and regardless of the submitted
locationContext, which only ever appears inside the prompts sent to the
external service, never in the fallback construction. -/
theorem claim_phase2_fallback_fixed_coordinates
    (parse : String → Option Json) (gtxt : String) (chunks : List WebChunk) (stxt : String)
    (hp : parse (stripFencesTrim stxt) = none) :
    findLocationWithGrounding parse (.ok (gtxt, chunks)) (.ok stxt) =
      .ok (fallbackLocationData gtxt, sourcesOfChunks chunks) ∧
    jsGet (fallbackLocationData gtxt) "latitude" = Json.num (mkRat 63 2) ∧
    jsGet (fallbackLocationData gtxt) "longitude" = Json.num (mkRat 689 20) ∧
    mkRat 63 2 = 31.5 ∧ mkRat 689 20 = 34.45 :=
  ⟨findLocation_fallback parse gtxt chunks stxt hp, rfl, rfl,
   fallbackLatitude_eq, fallbackLongitude_eq⟩

theorem claim_phase2_fallback_fixed_coordinates_witness :
    findLocationWithGrounding (fun _ => none)
        (.ok ("somewhere in Kharkiv, Ukraine", [])) (.ok "not json") =
      .ok (fallbackLocationData "somewhere in Kharkiv, Ukraine", sourcesOfChunks []) ∧
    jsGet (fallbackLocationData "somewhere in Kharkiv, Ukraine") "latitude" =
      Json.num (mkRat 63 2) :=
  ⟨(claim_phase2_fallback_fixed_coordinates (fun _ => none)
      "somewhere in Kharkiv, Ukraine" [] "not json" rfl).1,
   (claim_phase2_fallback_fixed_coordinates (fun _ => none)
      "somewhere in Kharkiv, Ukraine" [] "not json" rfl).2.1⟩
